import Mathlib

/-!
Shallow embedding of the Open-Tender-Radar scoring engine
(`src/backend/scoring.py` and the data model of `src/backend/models.py`).

Strings are modelled as lists of characters (`Str`); Python's substring
test `needle in haystack` is `needle <:+: haystack` (`List.IsInfix`),
which agrees with Python in that the empty string is a substring of
everything.  Python floats are modelled as rationals (`ℚ`): every
constant the engine compares against is an integer, exactly
representable, and all score arithmetic is exact on such values.
Python truthiness of an optional string (`if keywords:`) is
"present and non-empty"; of an optional float (`if not budget:`)
it is "absent or zero".
-/

/-- Strings, modelled as lists of characters. -/
abbrev Str := List Char

/-- Python `str.lower()` (ASCII case mapping). -/
def strLower (s : Str) : Str := s.map Char.toLower

/-- Python `str.upper()` (ASCII case mapping). -/
def strUpper (s : Str) : Str := s.map Char.toUpper

/-- `TenderType` enum from `models.py`. -/
inductive TenderType where
  | works
  | supplies
  | services
  | concession
deriving DecidableEq

/-- The tender record (`TenderDB` of `models.py`): the fields the engine
reads plus the carried-but-unscored fields (title, cpv_code, currency,
deadline, published_date — dates modelled as opaque integers). -/
structure TenderDB where
  title : Str
  description : Option Str
  country : Str
  sector : Str
  cpv_code : Option Str
  budget : Option ℚ
  currency : Str
  status : Str
  tender_type : Option TenderType
  deadline : Option Int
  published_date : Option Int
  keywords : Option Str
deriving DecidableEq

/-- The scoring engine's configuration state after `__init__`. -/
structure ScoringEngine where
  priority_countries : List Str
  target_sectors : List Str
  relevant_keywords : List Str
  less_relevant_types : List TenderType
deriving DecidableEq

/-- Class-level default `PRIORITY_COUNTRIES`. -/
def ScoringEngine.PRIORITY_COUNTRIES : List Str :=
  ["ES", "PT", "FR", "IT", "DE", "UK"].map String.toList

/-- Class-level default `TARGET_SECTORS`. -/
def ScoringEngine.TARGET_SECTORS : List Str :=
  ["technology", "software", "consulting", "digital", "it",
   "telecommunications"].map String.toList

/-- Class-level default `RELEVANT_KEYWORDS`. -/
def ScoringEngine.RELEVANT_KEYWORDS : List Str :=
  ["digital", "software", "cloud", "api", "saas", "platform", "data",
   "analytics", "ai", "machine learning", "blockchain",
   "cybersecurity"].map String.toList

/-- Class-level `LESS_RELEVANT_TYPES` (not overridable in `__init__`). -/
def ScoringEngine.LESS_RELEVANT_TYPES : List TenderType :=
  [TenderType.works, TenderType.concession]

/-- Python truthiness on an optional list argument of `__init__`:
`if override: use it` — `None` and `[]` both keep the default. -/
def overrideOrDefault (dflt : List Str) : Option (List Str) → List Str
  | none => dflt
  | some [] => dflt
  | some (c :: cs) => c :: cs

/-- `ScoringEngine.__init__`: construction always succeeds, each omitted
or empty override keeps the corresponding class-level default. -/
def ScoringEngine.create
    (priority_countries target_sectors relevant_keywords :
      Option (List Str)) : ScoringEngine :=
  { priority_countries :=
      overrideOrDefault ScoringEngine.PRIORITY_COUNTRIES priority_countries
    target_sectors :=
      overrideOrDefault ScoringEngine.TARGET_SECTORS target_sectors
    relevant_keywords :=
      overrideOrDefault ScoringEngine.RELEVANT_KEYWORDS relevant_keywords
    less_relevant_types := ScoringEngine.LESS_RELEVANT_TYPES }

/-- `ScoringEngine()` with no overrides. -/
def defaultEngine : ScoringEngine := ScoringEngine.create none none none

/-- `_score_budget`: tiers on the budget; `if not budget: return 0`
covers both an absent and a zero budget; the `currency` argument is
accepted but unused (EUR is assumed). -/
def ScoringEngine.score_budget (e : ScoringEngine) (budget : Option ℚ)
    (currency : Str) : ℚ :=
  match budget with
  | none => 0
  | some b =>
    if b = 0 then 0
    else if b < 10000 then 0
    else if b < 50000 then 5
    else if b < 100000 then 15
    else if b < 500000 then 25
    else 30

/-- `_score_country`: 20 for a priority country (case-insensitive via
`upper()` on both sides), otherwise 5. -/
def ScoringEngine.score_country (e : ScoringEngine) (country : Str) : ℚ :=
  if strUpper country ∈ e.priority_countries.map strUpper then 20 else 5

/-- `_score_sector`: 0 for an empty sector, 20 if any configured target
is a substring of the lower-cased sector, otherwise 5. -/
def ScoringEngine.score_sector (e : ScoringEngine) (sector : Str) : ℚ :=
  if sector = [] then 0
  else if e.target_sectors.any (fun t => decide (t <:+: strLower sector))
    then 20
  else 5

/-- The haystack built by `_score_keywords`: each truthy (present,
non-empty) part contributes its lower-casing followed by a space. -/
def keywordText (keywords description : Option Str) : Str :=
  (match keywords with
   | none => []
   | some k => if k = [] then [] else strLower k ++ [' ']) ++
  (match description with
   | none => []
   | some d => if d = [] then [] else strLower d ++ [' '])

/-- `_score_keywords`: count configured terms occurring in the haystack
(each term at most once), then map the count through the step table. -/
def ScoringEngine.score_keywords (e : ScoringEngine)
    (keywords description : Option Str) : ℚ :=
  let text := keywordText keywords description
  if text = [] then 0
  else
    let nMatches := e.relevant_keywords.foldl
      (fun m k => if strLower k <:+: text then m + 1 else m) 0
    if nMatches = 0 then 0
    else if nMatches ≤ 2 then 5
    else if nMatches ≤ 4 then 10
    else 15

/-- `_score_tender_type`: −5 for a less-relevant type, 10 for
SERVICES/SUPPLIES, 0 for a missing type. -/
def ScoringEngine.score_tender_type (e : ScoringEngine)
    (tender_type : Option TenderType) : ℚ :=
  match tender_type with
  | none => 0
  | some t =>
    if t ∈ e.less_relevant_types then -5
    else if t = TenderType.services ∨ t = TenderType.supplies then 10
    else 0

/-- `_score_status`: 5 for the exact lower-case literal `"open"`. -/
def ScoringEngine.score_status (e : ScoringEngine) (status : Str) : ℚ :=
  if status = "open".toList then 5 else 0

/-- The accumulated sum of `calculate_score` before the final clamp. -/
def ScoringEngine.raw_score (e : ScoringEngine) (t : TenderDB) : ℚ :=
  0 + e.score_budget t.budget t.currency + e.score_country t.country
    + e.score_sector t.sector + e.score_keywords t.keywords t.description
    + e.score_tender_type t.tender_type + e.score_status t.status

/-- `calculate_score`: sum of the six factors, clamped to [0, 100]. -/
def ScoringEngine.calculate_score (e : ScoringEngine) (t : TenderDB) : ℚ :=
  max 0 (min 100 (e.raw_score t))

/-- The record returned by `explain_score`: the total plus the six
breakdown entries under their fixed keys. -/
structure ScoreBreakdown where
  total : ℚ
  budget : ℚ
  country : ℚ
  sector : ℚ
  keywords : ℚ
  tender_type : ℚ
  status : ℚ
deriving DecidableEq

/-- `explain_score`: total via `calculate_score`, breakdown via the six
factor functions. -/
def ScoringEngine.explain_score (e : ScoringEngine) (t : TenderDB) :
    ScoreBreakdown :=
  { total := e.calculate_score t
    budget := e.score_budget t.budget t.currency
    country := e.score_country t.country
    sector := e.score_sector t.sector
    keywords := e.score_keywords t.keywords t.description
    tender_type := e.score_tender_type t.tender_type
    status := e.score_status t.status }

/-- Specification-side match counter: the number of configured keyword
terms whose lower-casing occurs in the haystack, each term contributing
at most one regardless of how often it occurs in the text. -/
def matchCount (ks : List Str) (text : Str) : Nat :=
  (ks.filter (fun k => decide (strLower k <:+: text))).length

/-- Specification-side step table for the keyword factor. -/
def matchLevel (n : Nat) : ℚ :=
  if n = 0 then 0 else if n ≤ 2 then 5 else if n ≤ 4 then 10 else 15

/-- The end-to-end example tender of the specification (§8): budget
600000, country ES, sector "software development", keywords
"cloud, api, saas", empty description, SERVICES, open. -/
def tender95 : TenderDB :=
  { title := "t".toList
    description := some []
    country := "ES".toList
    sector := "software development".toList
    cpv_code := none
    budget := some 600000
    currency := "EUR".toList
    status := "open".toList
    tender_type := some TenderType.services
    deadline := none
    published_date := none
    keywords := some "cloud, api, saas".toList }

/-- A WORKS tender with every other factor at its minimum: no budget,
non-priority country, empty sector, no keywords or description, closed. -/
def tenderWorksMin : TenderDB :=
  { title := "t".toList
    description := none
    country := "BR".toList
    sector := []
    cpv_code := none
    budget := none
    currency := "EUR".toList
    status := "closed".toList
    tender_type := some TenderType.works
    deadline := none
    published_date := none
    keywords := none }

/-- A tender attaining the maximal raw sum 30+20+20+15+10+5 = 100 under
the default configuration. -/
def tenderMax : TenderDB :=
  { title := "t".toList
    description := none
    country := "ES".toList
    sector := "software".toList
    cpv_code := none
    budget := some 600000
    currency := "EUR".toList
    status := "open".toList
    tender_type := some TenderType.services
    deadline := none
    published_date := none
    keywords := some "cloud, api, saas, digital, software".toList }

/-- A concrete tender for the field-dependence check. -/
def tenderA : TenderDB :=
  { title := "Tender A".toList
    description := some "cloud platform".toList
    country := "ES".toList
    sector := "software".toList
    cpv_code := some "72000000".toList
    budget := some 120000
    currency := "EUR".toList
    status := "open".toList
    tender_type := some TenderType.services
    deadline := some 100
    published_date := some 50
    keywords := some "api".toList }

/-- The same tender with different title, cpv_code, currency, deadline
and published_date, but identical scored fields. -/
def tenderB : TenderDB :=
  { title := "Tender B".toList
    description := some "cloud platform".toList
    country := "ES".toList
    sector := "software".toList
    cpv_code := some "48000000".toList
    budget := some 120000
    currency := "USD".toList
    status := "open".toList
    tender_type := some TenderType.services
    deadline := some 999
    published_date := some 1
    keywords := some "api".toList }

/-- The counting loop of `_score_keywords` computes `matchCount`. -/
theorem foldl_count_eq_matchCount (ks : List Str) (text : Str) :
    ks.foldl (fun m k => if strLower k <:+: text then m + 1 else m) 0 =
      matchCount ks text := by
  unfold matchCount
  suffices h : ∀ n : Nat,
      ks.foldl (fun m k => if strLower k <:+: text then m + 1 else m) n =
        n + (ks.filter (fun k => decide (strLower k <:+: text))).length by
    simpa using h 0
  induction ks with
  | nil => simp
  | cons a l ih =>
    intro n
    simp only [List.foldl_cons, List.filter_cons]
    by_cases h : strLower a <:+: text
    · simp [h, ih, Nat.add_assoc, Nat.add_comm 1]
    · simp [h, ih]

/-- The budget factor always lies in [0, 30]. -/
theorem score_budget_range (e : ScoringEngine) (b : Option ℚ) (cur : Str) :
    0 ≤ e.score_budget b cur ∧ e.score_budget b cur ≤ 30 := by
  cases b with
  | none => simp [ScoringEngine.score_budget]
  | some x =>
    simp only [ScoringEngine.score_budget]
    split_ifs <;> norm_num

/-- The country factor always lies in [5, 20]. -/
theorem score_country_range (e : ScoringEngine) (c : Str) :
    5 ≤ e.score_country c ∧ e.score_country c ≤ 20 := by
  simp only [ScoringEngine.score_country]
  split_ifs <;> norm_num

/-- The sector factor always lies in [0, 20]. -/
theorem score_sector_range (e : ScoringEngine) (s : Str) :
    0 ≤ e.score_sector s ∧ e.score_sector s ≤ 20 := by
  simp only [ScoringEngine.score_sector]
  split_ifs <;> norm_num

/-- The keyword factor always lies in [0, 15]. -/
theorem score_keywords_range (e : ScoringEngine) (kw desc : Option Str) :
    0 ≤ e.score_keywords kw desc ∧ e.score_keywords kw desc ≤ 15 := by
  simp only [ScoringEngine.score_keywords]
  split_ifs <;> norm_num

/-- The contract-type factor always lies in [−5, 10]. -/
theorem score_tender_type_range (e : ScoringEngine) (tt : Option TenderType) :
    -5 ≤ e.score_tender_type tt ∧ e.score_tender_type tt ≤ 10 := by
  cases tt with
  | none => simp [ScoringEngine.score_tender_type]
  | some x =>
    simp only [ScoringEngine.score_tender_type]
    split_ifs <;> norm_num

/-- The status factor always lies in [0, 5]. -/
theorem score_status_range (e : ScoringEngine) (s : Str) :
    0 ≤ e.score_status s ∧ e.score_status s ≤ 5 := by
  simp only [ScoringEngine.score_status]
  split_ifs <;> norm_num

/-- Claim C1: for every tender and every configuration,
`calculate_score` returns a value in [0, 100]. -/
theorem calculate_score_bounds (e : ScoringEngine) (t : TenderDB) :
    0 ≤ e.calculate_score t ∧ e.calculate_score t ≤ 100 := by
  unfold ScoringEngine.calculate_score
  exact ⟨le_max_left _ _, max_le (by norm_num) (min_le_left _ _)⟩

/-- Claim C2: for every tender and every configuration,
`explain_score` returns a record whose total equals `calculate_score`,
and the sum of the six breakdown values, clamped to [0, 100], equals
that total. -/
theorem explain_score_consistent (e : ScoringEngine) (t : TenderDB) :
    (e.explain_score t).total = e.calculate_score t ∧
    max 0 (min 100 ((e.explain_score t).budget + (e.explain_score t).country
        + (e.explain_score t).sector + (e.explain_score t).keywords
        + (e.explain_score t).tender_type + (e.explain_score t).status)) =
      (e.explain_score t).total := by
  refine ⟨rfl, ?_⟩
  simp only [ScoringEngine.explain_score, ScoringEngine.calculate_score,
    ScoringEngine.raw_score]
  ring_nf

/-- Claim C3: the budget factor is the piecewise step function with
half-open-below tiers (missing/zero → 0; < 10000 → 0; [10000, 50000) →
5; [50000, 100000) → 15; [100000, 500000) → 25; ≥ 500000 → 30), the
listed boundary values are exact, and the factor is monotone
non-decreasing in the budget. -/
theorem score_budget_spec (e : ScoringEngine) (cur : Str) :
    e.score_budget none cur = 0 ∧
    e.score_budget (some 0) cur = 0 ∧
    (∀ b : ℚ, b < 10000 → e.score_budget (some b) cur = 0) ∧
    (∀ b : ℚ, 10000 ≤ b → b < 50000 → e.score_budget (some b) cur = 5) ∧
    (∀ b : ℚ, 50000 ≤ b → b < 100000 → e.score_budget (some b) cur = 15) ∧
    (∀ b : ℚ, 100000 ≤ b → b < 500000 → e.score_budget (some b) cur = 25) ∧
    (∀ b : ℚ, 500000 ≤ b → e.score_budget (some b) cur = 30) ∧
    e.score_budget (some 9999) cur = 0 ∧
    e.score_budget (some 10000) cur = 5 ∧
    e.score_budget (some 50000) cur = 15 ∧
    e.score_budget (some 100000) cur = 25 ∧
    e.score_budget (some 500000) cur = 30 ∧
    (∀ b1 b2 : ℚ, b1 ≤ b2 →
      e.score_budget (some b1) cur ≤ e.score_budget (some b2) cur) := by
  have hv : ∀ b : ℚ, e.score_budget (some b) cur =
      if b = 0 then 0
      else if b < 10000 then 0
      else if b < 50000 then 5
      else if b < 100000 then 15
      else if b < 500000 then 25
      else 30 := fun b => rfl
  refine ⟨rfl, by rw [hv]; norm_num, ?_, ?_, ?_, ?_, ?_,
    by rw [hv]; norm_num, by rw [hv]; norm_num, by rw [hv]; norm_num,
    by rw [hv]; norm_num, by rw [hv]; norm_num, ?_⟩
  · intro b h
    rw [hv]
    split_ifs <;> linarith
  · intro b h1 h2
    rw [hv]
    split_ifs <;> linarith
  · intro b h1 h2
    rw [hv]
    split_ifs <;> linarith
  · intro b h1 h2
    rw [hv]
    split_ifs <;> linarith
  · intro b h
    rw [hv]
    split_ifs <;> linarith
  · intro b1 b2 h
    rw [hv, hv]
    split_ifs <;> linarith

/-- Witness for C3: the tier and monotonicity hypotheses are satisfiable
at concrete budgets. -/
theorem score_budget_spec_witness :
    ((10000 : ℚ) ≤ 10000 ∧ (10000 : ℚ) < 50000 ∧
      defaultEngine.score_budget (some 10000) [] = 5) ∧
    ((49999 : ℚ) ≤ 50000 ∧
      defaultEngine.score_budget (some 49999) [] ≤
        defaultEngine.score_budget (some 50000) []) := by
  obtain ⟨-, -, -, htier, -, -, -, -, -, -, -, -, hmono⟩ :=
    score_budget_spec defaultEngine []
  exact ⟨⟨by norm_num, by norm_num, htier 10000 (by norm_num) (by norm_num)⟩,
    ⟨by norm_num, hmono 49999 50000 (by norm_num)⟩⟩

/-- Claim C4: the keyword factor builds one lower-cased haystack from
the keyword and description strings (absent parts contribute nothing,
both absent → 0), counts configured terms occurring as substrings with
each term counted at most once regardless of repeated occurrences, and
maps the count by 0 → 0, 1–2 → 5, 3–4 → 10, ≥ 5 → 15. -/
theorem score_keywords_spec (e : ScoringEngine) (kw desc : Option Str) :
    e.score_keywords none none = 0 ∧
    e.score_keywords kw desc =
      (if keywordText kw desc = [] then 0
       else matchLevel (matchCount e.relevant_keywords
         (keywordText kw desc))) ∧
    matchCount e.relevant_keywords (keywordText kw desc) ≤
      e.relevant_keywords.length ∧
    matchLevel 0 = 0 ∧ matchLevel 1 = 5 ∧ matchLevel 2 = 5 ∧
    matchLevel 3 = 10 ∧ matchLevel 4 = 10 ∧ matchLevel 5 = 15 ∧
    matchLevel 6 = 15 ∧
    defaultEngine.score_keywords none
        (some "cloud cloud cloud".toList) =
      defaultEngine.score_keywords none (some "cloud".toList) := by
  refine ⟨rfl, ?_, List.length_filter_le _ _, rfl, rfl, rfl, rfl, rfl,
    rfl, rfl, by decide⟩
  by_cases h : keywordText kw desc = []
  · simp [ScoringEngine.score_keywords, h]
  · simp only [ScoringEngine.score_keywords, h, if_neg,
      foldl_count_eq_matchCount, matchLevel]

/-- Counterexample to C5 as stated: with the override priority-country
list `[""]` (accepted by `__init__` since a non-empty list is truthy),
the empty country string case-insensitively matches the configured
member `""`, so the country factor is 20, not 5. -/
theorem score_country_empty_cex :
    (ScoringEngine.create (some [([] : Str)]) none none).score_country []
        = 20 ∧
    ¬ (ScoringEngine.create (some [([] : Str)]) none none).score_country []
        = 5 := by decide

/-- Claim C5 (amended): the country factor is 20 when the country code
case-insensitively matches a configured priority country and 5
otherwise; it is never 0; "es" and "ES" yield identical factors; and
the empty string yields 5 whenever the empty string is not itself a
configured priority country. -/
theorem score_country_spec (e : ScoringEngine) (c : Str) :
    ((∃ p ∈ e.priority_countries, strUpper p = strUpper c) →
      e.score_country c = 20) ∧
    ((∀ p ∈ e.priority_countries, strUpper p ≠ strUpper c) →
      e.score_country c = 5) ∧
    e.score_country c ≠ 0 ∧
    e.score_country "es".toList = e.score_country "ES".toList ∧
    (([] : Str) ∉ e.priority_countries → e.score_country [] = 5) := by
  have key : (strUpper c ∈ e.priority_countries.map strUpper) ↔
      ∃ p ∈ e.priority_countries, strUpper p = strUpper c := by
    simp [List.mem_map]
  refine ⟨?_, ?_, ?_, ?_, ?_⟩
  · intro h
    simp only [ScoringEngine.score_country]
    rw [if_pos (key.mpr h)]
  · intro h
    simp only [ScoringEngine.score_country]
    rw [if_neg]
    intro hmem
    obtain ⟨p, hp, hpe⟩ := key.mp hmem
    exact h p hp hpe
  · simp only [ScoringEngine.score_country]
    split_ifs <;> norm_num
  · have h2 : strUpper "es".toList = strUpper "ES".toList := by decide
    simp only [ScoringEngine.score_country, h2]
  · intro h
    simp only [ScoringEngine.score_country]
    rw [if_neg]
    intro hmem
    obtain ⟨p, hp, hpe⟩ := List.mem_map.mp hmem
    have hpn : strUpper p = [] := hpe
    have hp0 : p = [] := by simpa [strUpper] using hpn
    exact h (hp0 ▸ hp)

/-- Witness for C5 (amended): hypotheses discharged at the default
configuration with countries "es", "xx" and the empty string. -/
theorem score_country_spec_witness :
    ((∃ p ∈ defaultEngine.priority_countries,
        strUpper p = strUpper "es".toList) ∧
      defaultEngine.score_country "es".toList = 20) ∧
    ((∀ p ∈ defaultEngine.priority_countries,
        strUpper p ≠ strUpper "xx".toList) ∧
      defaultEngine.score_country "xx".toList = 5) ∧
    (([] : Str) ∉ defaultEngine.priority_countries ∧
      defaultEngine.score_country [] = 5) := by
  refine ⟨⟨by decide, (score_country_spec defaultEngine "es".toList).1
      (by decide)⟩,
    ⟨by decide, (score_country_spec defaultEngine "xx".toList).2.1
      (by decide)⟩,
    ⟨by decide, (score_country_spec defaultEngine []).2.2.2.2 (by decide)⟩⟩

/-- Counterexample to C6 as stated: for a WORKS tender with every other
factor at its minimum, the raw sum is exactly 0, not negative — the
country factor is 5, never 0, so "otherwise all-zero factor
contributions" is unattainable and the clamp never lifts a negative
raw sum. -/
theorem works_zero_cex :
    defaultEngine.score_country tenderWorksMin.country = 5 ∧
    defaultEngine.score_country tenderWorksMin.country ≠ 0 ∧
    defaultEngine.raw_score tenderWorksMin = 0 ∧
    ¬ defaultEngine.raw_score tenderWorksMin < 0 ∧
    defaultEngine.calculate_score tenderWorksMin = 0 := by
  have hb : defaultEngine.score_budget tenderWorksMin.budget
      tenderWorksMin.currency = 0 := by decide
  have hc : defaultEngine.score_country tenderWorksMin.country = 5 := by
    decide
  have hs : defaultEngine.score_sector tenderWorksMin.sector = 0 := by
    decide
  have hk : defaultEngine.score_keywords tenderWorksMin.keywords
      tenderWorksMin.description = 0 := by decide
  have ht : defaultEngine.score_tender_type tenderWorksMin.tender_type
      = -5 := by decide
  have hst : defaultEngine.score_status tenderWorksMin.status = 0 := by
    decide
  have hraw : defaultEngine.raw_score tenderWorksMin = 0 := by
    unfold ScoringEngine.raw_score
    rw [hb, hc, hs, hk, ht, hst]
    norm_num
  refine ⟨hc, by rw [hc]; norm_num, hraw, by rw [hraw]; norm_num, ?_⟩
  unfold ScoringEngine.calculate_score
  rw [hraw]
  norm_num

/-- Claim C6 (amended): a WORKS tender whose other factors are at their
minima (budget, sector, keywords and status 0; country at its minimum
5) has raw sum exactly 0 and total score 0; the WORKS/CONCESSION
penalty is −5 while SERVICES/SUPPLIES give 10 and a missing type gives
0. -/
theorem works_penalty_spec (pc ts rk : Option (List Str)) (t : TenderDB) :
    (t.tender_type = some TenderType.works →
      (ScoringEngine.create pc ts rk).score_budget t.budget t.currency = 0 →
      (ScoringEngine.create pc ts rk).score_sector t.sector = 0 →
      (ScoringEngine.create pc ts rk).score_keywords t.keywords
          t.description = 0 →
      (ScoringEngine.create pc ts rk).score_status t.status = 0 →
      (ScoringEngine.create pc ts rk).score_country t.country = 5 →
      (ScoringEngine.create pc ts rk).raw_score t = 0 ∧
        (ScoringEngine.create pc ts rk).calculate_score t = 0) ∧
    (ScoringEngine.create pc ts rk).score_tender_type
        (some TenderType.works) = -5 ∧
    (ScoringEngine.create pc ts rk).score_tender_type
        (some TenderType.concession) = -5 ∧
    (ScoringEngine.create pc ts rk).score_tender_type
        (some TenderType.services) = 10 ∧
    (ScoringEngine.create pc ts rk).score_tender_type
        (some TenderType.supplies) = 10 ∧
    (ScoringEngine.create pc ts rk).score_tender_type none = 0 := by
  have hworks : (ScoringEngine.create pc ts rk).score_tender_type
      (some TenderType.works) = -5 := by
    simp [ScoringEngine.create, ScoringEngine.score_tender_type,
      ScoringEngine.LESS_RELEVANT_TYPES]
  refine ⟨?_, hworks, ?_, ?_, ?_, rfl⟩
  · intro htt hb hs hk hst hc
    have hraw : (ScoringEngine.create pc ts rk).raw_score t = 0 := by
      unfold ScoringEngine.raw_score
      rw [hb, hs, hk, hst, hc, htt, hworks]
      norm_num
    refine ⟨hraw, ?_⟩
    unfold ScoringEngine.calculate_score
    rw [hraw]
    norm_num
  · simp [ScoringEngine.create, ScoringEngine.score_tender_type,
      ScoringEngine.LESS_RELEVANT_TYPES]
  · simp [ScoringEngine.create, ScoringEngine.score_tender_type,
      ScoringEngine.LESS_RELEVANT_TYPES]
  · simp [ScoringEngine.create, ScoringEngine.score_tender_type,
      ScoringEngine.LESS_RELEVANT_TYPES]

/-- Witness for C6 (amended): the minimal WORKS tender satisfies the
hypotheses under the default configuration and scores 0. -/
theorem works_penalty_spec_witness :
    tenderWorksMin.tender_type = some TenderType.works ∧
    (ScoringEngine.create none none none).raw_score tenderWorksMin = 0 ∧
    (ScoringEngine.create none none none).calculate_score tenderWorksMin
      = 0 := by
  have h := (works_penalty_spec none none none tenderWorksMin).1 rfl
    (by decide) (by decide) (by decide) (by decide) (by decide)
  exact ⟨rfl, h.1, h.2⟩

/-- Claim C7: under the default configuration, the end-to-end example
tender (budget 600000, country "ES", sector "software development",
keywords "cloud, api, saas", empty description, SERVICES, open) has
factor scores budget 30, country 20, sector 20, keywords 10,
tender_type 10, status 5, and total score 95. -/
theorem tender95_score :
    (defaultEngine.explain_score tender95).budget = 30 ∧
    (defaultEngine.explain_score tender95).country = 20 ∧
    (defaultEngine.explain_score tender95).sector = 20 ∧
    (defaultEngine.explain_score tender95).keywords = 10 ∧
    (defaultEngine.explain_score tender95).tender_type = 10 ∧
    (defaultEngine.explain_score tender95).status = 5 ∧
    defaultEngine.calculate_score tender95 = 95 := by
  have hb : defaultEngine.score_budget tender95.budget tender95.currency
      = 30 := by decide
  have hc : defaultEngine.score_country tender95.country = 20 := by decide
  have hs : defaultEngine.score_sector tender95.sector = 20 := by decide
  have hk : defaultEngine.score_keywords tender95.keywords
      tender95.description = 10 := by decide
  have ht : defaultEngine.score_tender_type tender95.tender_type = 10 := by
    decide
  have hst : defaultEngine.score_status tender95.status = 5 := by decide
  have hraw : defaultEngine.raw_score tender95 = 95 := by
    unfold ScoringEngine.raw_score
    rw [hb, hc, hs, hk, ht, hst]
    norm_num
  refine ⟨hb, hc, hs, hk, ht, hst, ?_⟩
  unfold ScoringEngine.calculate_score
  rw [hraw]
  norm_num

/-- Claim C8: construction always succeeds (it is a total function),
and omitted or empty override lists yield an engine equal to — and
scoring every tender identically to — the engine built from the
built-in default lists. -/
theorem default_override_equiv (t : TenderDB) :
    ScoringEngine.create none none none =
      ScoringEngine.create (some ScoringEngine.PRIORITY_COUNTRIES)
        (some ScoringEngine.TARGET_SECTORS)
        (some ScoringEngine.RELEVANT_KEYWORDS) ∧
    ScoringEngine.create none none none =
      ScoringEngine.create (some []) (some []) (some []) ∧
    (ScoringEngine.create (some ScoringEngine.PRIORITY_COUNTRIES)
        (some ScoringEngine.TARGET_SECTORS)
        (some ScoringEngine.RELEVANT_KEYWORDS)).calculate_score t =
      (ScoringEngine.create none none none).calculate_score t ∧
    (ScoringEngine.create (some []) (some []) (some [])).calculate_score t
      = (ScoringEngine.create none none none).calculate_score t :=
  ⟨rfl, rfl, rfl, rfl⟩

/-- The budget factor ignores its `currency` argument. -/
theorem score_budget_currency_irrel (e : ScoringEngine) (b : Option ℚ)
    (c1 c2 : Str) : e.score_budget b c1 = e.score_budget b c2 := by
  cases b <;> rfl

/-- Claim C9: `calculate_score` is deterministic and depends only on
budget, country, sector, keywords, description, tender_type and
status: tenders agreeing on those fields — whatever their title,
cpv_code, currency, deadline or published_date — score identically. -/
theorem calculate_score_field_dependence (e : ScoringEngine)
    (t1 t2 : TenderDB)
    (hb : t1.budget = t2.budget) (hc : t1.country = t2.country)
    (hs : t1.sector = t2.sector) (hk : t1.keywords = t2.keywords)
    (hd : t1.description = t2.description)
    (ht : t1.tender_type = t2.tender_type)
    (hst : t1.status = t2.status) :
    e.calculate_score t1 = e.calculate_score t2 := by
  unfold ScoringEngine.calculate_score ScoringEngine.raw_score
  rw [hb, hc, hs, hk, hd, ht, hst,
    score_budget_currency_irrel e t2.budget t1.currency t2.currency]

/-- Witness for C9: two concrete tenders differing in title, cpv_code,
currency, deadline and published_date receive the same score. -/
theorem calculate_score_field_dependence_witness :
    tenderA.budget = tenderB.budget ∧ tenderA.country = tenderB.country ∧
    tenderA.sector = tenderB.sector ∧
    tenderA.keywords = tenderB.keywords ∧
    tenderA.description = tenderB.description ∧
    tenderA.tender_type = tenderB.tender_type ∧
    tenderA.status = tenderB.status ∧
    tenderA.title ≠ tenderB.title ∧
    tenderA.currency ≠ tenderB.currency ∧
    defaultEngine.calculate_score tenderA =
      defaultEngine.calculate_score tenderB :=
  ⟨rfl, rfl, rfl, rfl, rfl, rfl, rfl, by decide, by decide,
    calculate_score_field_dependence defaultEngine tenderA tenderB
      rfl rfl rfl rfl rfl rfl rfl⟩

/-- Claim C10: for every tender and every configuration the raw
pre-clamp sum already lies in [0, 100] (the country factor's minimum 5
offsets the −5 type penalty), the clamp in `calculate_score` never
changes the value, and the maximum 100 is attained. -/
theorem raw_score_bounds (e : ScoringEngine) (t : TenderDB) :
    0 ≤ e.raw_score t ∧ e.raw_score t ≤ 100 ∧
    e.calculate_score t = e.raw_score t ∧
    defaultEngine.raw_score tenderMax = 100 := by
  obtain ⟨hb0, hb1⟩ := score_budget_range e t.budget t.currency
  obtain ⟨hc0, hc1⟩ := score_country_range e t.country
  obtain ⟨hs0, hs1⟩ := score_sector_range e t.sector
  obtain ⟨hk0, hk1⟩ := score_keywords_range e t.keywords t.description
  obtain ⟨ht0, ht1⟩ := score_tender_type_range e t.tender_type
  obtain ⟨hst0, hst1⟩ := score_status_range e t.status
  have h0 : 0 ≤ e.raw_score t := by
    unfold ScoringEngine.raw_score
    linarith
  have h1 : e.raw_score t ≤ 100 := by
    unfold ScoringEngine.raw_score
    linarith
  have hmax : defaultEngine.raw_score tenderMax = 100 := by
    have hb : defaultEngine.score_budget tenderMax.budget
        tenderMax.currency = 30 := by decide
    have hc : defaultEngine.score_country tenderMax.country = 20 := by
      decide
    have hs : defaultEngine.score_sector tenderMax.sector = 20 := by decide
    have hk : defaultEngine.score_keywords tenderMax.keywords
        tenderMax.description = 15 := by decide
    have ht : defaultEngine.score_tender_type tenderMax.tender_type
        = 10 := by decide
    have hst : defaultEngine.score_status tenderMax.status = 5 := by decide
    unfold ScoringEngine.raw_score
    rw [hb, hc, hs, hk, ht, hst]
    norm_num
  refine ⟨h0, h1, ?_, hmax⟩
  unfold ScoringEngine.calculate_score
  rw [min_eq_right h1, max_eq_right h0]
